import Mathlib

/-!
Verification of the MCP (Model Context Protocol) server library of this
repository: the JSON-RPC protocol codec (`mcp_schema.c` / `mcp_protocol`),
the tool result model and argument accessors (`mcp_tool.c`), the parameter
schema engine (`mcp_schema.c`), and the server orchestrator — registry,
lifecycle and dispatch (`mcp_server.c`).

The JSON library (cJSON) is an external collaborator of the core; it is
modelled here as an inductive JSON value type together with the handful of
cJSON entry points the core calls (parse, print, object lookup, type
tests).  JSON numbers are modelled as rationals; the C `int` fields are
modelled as unbounded `Int` (no overflow is exercised by any property
below).  C strings are modelled as `String`, with a nullable pointer
rendered as `Option String`.
-/

/-- Model of a cJSON value tree.  Object fields are kept in insertion
(parse) order, as cJSON keeps children in a linked list. -/
inductive JValue where
  | null : JValue
  | bool (b : Bool) : JValue
  | num (q : Rat) : JValue
  | str (s : String) : JValue
  | arr (items : List JValue) : JValue
  | obj (fields : List (String × JValue)) : JValue

/-- Modelled from the spec: the C cast `(int)d` applied to a cJSON number
(this is how cJSON computes `valueint` from `valuedouble`): truncation
toward zero.  For a rational in lowest terms with positive denominator,
`Int.div` (T-division) of numerator by denominator is exactly that. -/
def ratTrunc (q : Rat) : Int := Int.tdiv q.num (q.den : Int)

/-- Modelled from the spec: cJSON type test `cJSON_IsString`. -/
def cJSON_IsString : JValue → Bool
  | .str _ => true
  | _ => false

/-- Modelled from the spec: cJSON type test `cJSON_IsNumber`. -/
def cJSON_IsNumber : JValue → Bool
  | .num _ => true
  | _ => false

/-- Modelled from the spec: cJSON type test `cJSON_IsBool` (true for the
`cJSON_True` and `cJSON_False` node types). -/
def cJSON_IsBool : JValue → Bool
  | .bool _ => true
  | _ => false

/-- Modelled from the spec: `cJSON_IsTrue` (node type is `cJSON_True`). -/
def cJSON_IsTrue : JValue → Bool
  | .bool true => true
  | _ => false

/-- ASCII `tolower`, as used by cJSON's comparison. -/
def asciiLower (c : Char) : Char :=
  if 65 ≤ c.toNat ∧ c.toNat ≤ 90 then Char.ofNat (c.toNat + 32) else c

/-- Modelled from the spec: cJSON's `case_insensitive_strcmp`, used by
`cJSON_GetObjectItem`, compares ASCII case-insensitively. -/
def ciEq (a b : String) : Bool := a.data.map asciiLower == b.data.map asciiLower

/-- Modelled from the spec: `cJSON_GetObjectItem object key` — the first
child of an object node whose name matches the key (cJSON's default lookup
is ASCII case-insensitive); `NULL` (here `none`) on a non-object node or a
missing key. -/
def cJSON_GetObjectItem (v : JValue) (key : String) : Option JValue :=
  match v with
  | .obj fields => (fields.find? fun f => ciEq f.1 key).map fun f => f.2
  | _ => none

/-- Lowercase hexadecimal digit. -/
def hexDigit (n : Nat) : Char :=
  if n < 10 then Char.ofNat (48 + n) else Char.ofNat (87 + n)

/-- Four lowercase hexadecimal digits, as in cJSON's `sprintf "u%04x"`. -/
def hex4 (n : Nat) : String :=
  String.mk [hexDigit (n / 4096 % 16), hexDigit (n / 256 % 16),
             hexDigit (n / 16 % 16), hexDigit (n % 16)]

/-- Modelled from the spec: one character of cJSON's `print_string_ptr`
escaping — `"` and `\` are escaped, control characters use the short
escapes or a `\u00xx` sequence, everything else is copied verbatim. -/
def escapeChar (c : Char) : String :=
  if c = Char.ofNat 34 then "\\\""
  else if c = Char.ofNat 92 then "\\\\"
  else if c.toNat = 8 then "\\b"
  else if c.toNat = 12 then "\\f"
  else if c.toNat = 10 then "\\n"
  else if c.toNat = 13 then "\\r"
  else if c.toNat = 9 then "\\t"
  else if c.toNat < 32 then "\\u" ++ hex4 c.toNat
  else String.singleton c

/-- Modelled from the spec: cJSON's `print_string_ptr` — a quoted,
escaped string literal. -/
def printStringLit (s : String) : String :=
  "\"" ++ String.join (s.data.map escapeChar) ++ "\""

/-- Modelled from the spec: cJSON's `print_number` prints an
integer-valued number with `%d` (all numbers reached by the properties
below are of this form); cJSON's `%1.15g` floating-point rendering of
non-integral doubles is outside the model and a non-integral rational is
rendered as `num/den`. -/
def printNumber (q : Rat) : String :=
  if q.den = 1 then toString q.num else toString q.num ++ "/" ++ toString q.den

mutual

/-- Modelled from the spec: `cJSON_PrintUnformatted` — serialize a JSON
tree with no whitespace. -/
def printJson : JValue → String
  | .null => "null"
  | .bool b => if b then "true" else "false"
  | .num q => printNumber q
  | .str s => printStringLit s
  | .arr items => "[" ++ printItems items ++ "]"
  | .obj fields => "\x7b" ++ printFields fields ++ "\x7d"

/-- Comma-separated serialization of array items. -/
def printItems : List JValue → String
  | [] => ""
  | [v] => printJson v
  | v :: w :: rest => printJson v ++ "," ++ printItems (w :: rest)

/-- Comma-separated serialization of object fields as `"key":value`. -/
def printFields : List (String × JValue) → String
  | [] => ""
  | [f] => printStringLit f.1 ++ ":" ++ printJson f.2
  | f :: g :: rest => printStringLit f.1 ++ ":" ++ printJson f.2 ++ "," ++ printFields (g :: rest)

end

/-- Modelled from the spec: cJSON's `buffer_skip_whitespace` skips every
byte with value at most 32. -/
def skipWs (cs : List Char) : List Char := cs.dropWhile fun c => c.toNat ≤ 32

/-- Decimal digit test. -/
def isDigitChar (c : Char) : Bool := 48 ≤ c.toNat && c.toNat ≤ 57

/-- Value of a list of decimal digits. -/
def digitsVal (ds : List Char) : Nat := ds.foldl (fun acc c => acc * 10 + (c.toNat - 48)) 0

/-- Modelled from the spec: cJSON's `parse_number` hands the number text
to `strtod`; here the accepted grammar — optional sign, integer digits,
optional fraction, optional signed exponent, at least one digit in the
mantissa — is evaluated exactly over the rationals. -/
def parseNumber (cs : List Char) : Option (Rat × List Char) :=
  let (neg, cs1) := match cs with
    | c :: rest => if c = Char.ofNat 45 then (true, rest) else (false, cs)
    | [] => (false, cs)
  let intDigits := cs1.takeWhile isDigitChar
  let cs2 := cs1.dropWhile isDigitChar
  let (fracDigits, cs3) := match cs2 with
    | c :: rest =>
      if c = Char.ofNat 46 then (rest.takeWhile isDigitChar, rest.dropWhile isDigitChar)
      else ([], cs2)
    | [] => ([], cs2)
  if intDigits.isEmpty && fracDigits.isEmpty then none
  else
    let scale : Nat := Nat.pow 10 fracDigits.length
    let mant : Nat := digitsVal intDigits * scale + digitsVal fracDigits
    let (expVal, cs4) : Int × List Char := match cs3 with
      | c :: rest =>
        if c = Char.ofNat 101 ∨ c = Char.ofNat 69 then
          let (eneg, rest1) := match rest with
            | d :: rest2 =>
              if d = Char.ofNat 45 then (true, rest2)
              else if d = Char.ofNat 43 then (false, rest2)
              else (false, rest)
            | [] => (false, rest)
          let eds := rest1.takeWhile isDigitChar
          if eds.isEmpty then (0, cs3)
          else ((if eneg then -(digitsVal eds : Int) else (digitsVal eds : Int)), rest1.dropWhile isDigitChar)
        else (0, cs3)
      | [] => (0, cs3)
    let scaled : Rat :=
      if 0 ≤ expVal then
        mkRat ((mant : Int) * ((Nat.pow 10 expVal.toNat : Nat) : Int)) scale
      else
        mkRat (mant : Int) (scale * Nat.pow 10 (-expVal).toNat)
    some ((if neg then Rat.neg scaled else scaled), cs4)

/-- Hexadecimal digit value, `none` for a non-hex character. -/
def hexVal (c : Char) : Option Nat :=
  if 48 ≤ c.toNat ∧ c.toNat ≤ 57 then some (c.toNat - 48)
  else if 97 ≤ c.toNat ∧ c.toNat ≤ 102 then some (c.toNat - 87)
  else if 65 ≤ c.toNat ∧ c.toNat ≤ 70 then some (c.toNat - 55)
  else none

/-- Modelled from the spec: the body of cJSON's `parse_string` after the
opening quote — raw characters up to the closing quote, with the JSON
escapes; a `\uXXXX` escape is decoded for codepoints outside the UTF-16
surrogate range (surrogate-pair decoding is outside the model and not
reached by any property below). -/
def parseStringBody (fuel : Nat) (cs : List Char) : Option (String × List Char) :=
  match fuel, cs with
  | 0, _ => none
  | _, [] => none
  | Nat.succ fuel, c :: rest =>
    if c = Char.ofNat 34 then some ("", rest)
    else if c = Char.ofNat 92 then
      match rest with
      | [] => none
      | e :: rest1 =>
        let dec : Option (Char × List Char) :=
          if e = Char.ofNat 34 then some (Char.ofNat 34, rest1)
          else if e = Char.ofNat 92 then some (Char.ofNat 92, rest1)
          else if e = Char.ofNat 47 then some (Char.ofNat 47, rest1)
          else if e = Char.ofNat 98 then some (Char.ofNat 8, rest1)
          else if e = Char.ofNat 102 then some (Char.ofNat 12, rest1)
          else if e = Char.ofNat 110 then some (Char.ofNat 10, rest1)
          else if e = Char.ofNat 114 then some (Char.ofNat 13, rest1)
          else if e = Char.ofNat 116 then some (Char.ofNat 9, rest1)
          else if e = Char.ofNat 117 then
            match rest1 with
            | h1 :: h2 :: h3 :: h4 :: rest2 =>
              match hexVal h1, hexVal h2, hexVal h3, hexVal h4 with
              | some a, some b, some c3, some d =>
                let cp := a * 4096 + b * 256 + c3 * 16 + d
                if 55296 ≤ cp ∧ cp ≤ 57343 then none else some (Char.ofNat cp, rest2)
              | _, _, _, _ => none
            | _ => none
          else none
        match dec with
        | none => none
        | some (d, rest2) =>
          match parseStringBody fuel rest2 with
          | some (s, rest3) => some (String.singleton d ++ s, rest3)
          | none => none
    else
      match parseStringBody fuel rest with
      | some (s, rest3) => some (String.singleton c ++ s, rest3)
      | none => none

mutual

/-- Modelled from the spec: cJSON's `parse_value` — one JSON value at the
head of the input (`null`, `true`, `false`, string, number, array or
object), returning the value and the unconsumed remainder.  The fuel
argument bounds recursion depth; the callers below always supply enough
fuel for the whole input. -/
def parseValue : Nat → List Char → Option (JValue × List Char)
  | 0, _ => none
  | Nat.succ fuel, cs =>
    match cs with
    | [] => none
    | c :: rest =>
      if c = Char.ofNat 110 then
        match rest with
        | u :: l1 :: l2 :: rest1 =>
          if u = Char.ofNat 117 ∧ l1 = Char.ofNat 108 ∧ l2 = Char.ofNat 108 then
            some (JValue.null, rest1)
          else none
        | _ => none
      else if c = Char.ofNat 116 then
        match rest with
        | r :: u :: e :: rest1 =>
          if r = Char.ofNat 114 ∧ u = Char.ofNat 117 ∧ e = Char.ofNat 101 then
            some (JValue.bool true, rest1)
          else none
        | _ => none
      else if c = Char.ofNat 102 then
        match rest with
        | a :: l :: s :: e :: rest1 =>
          if a = Char.ofNat 97 ∧ l = Char.ofNat 108 ∧ s = Char.ofNat 115 ∧ e = Char.ofNat 101 then
            some (JValue.bool false, rest1)
          else none
        | _ => none
      else if c = Char.ofNat 34 then
        match parseStringBody (rest.length + 1) rest with
        | some (s, rest1) => some (JValue.str s, rest1)
        | none => none
      else if c = Char.ofNat 45 ∨ isDigitChar c then
        match parseNumber cs with
        | some (q, rest1) => some (JValue.num q, rest1)
        | none => none
      else if c = Char.ofNat 91 then
        match skipWs rest with
        | d :: rest1 =>
          if d = Char.ofNat 93 then some (JValue.arr [], rest1)
          else
            match parseItemsTail fuel (skipWs rest) with
            | some (items, rest2) => some (JValue.arr items, rest2)
            | none => none
        | [] => none
      else if c = Char.ofNat 123 then
        match skipWs rest with
        | d :: rest1 =>
          if d = Char.ofNat 125 then some (JValue.obj [], rest1)
          else
            match parseFieldsTail fuel (skipWs rest) with
            | some (fields, rest2) => some (JValue.obj fields, rest2)
            | none => none
        | [] => none
      else none

/-- One-or-more comma-separated array items, ending at `]`. -/
def parseItemsTail : Nat → List Char → Option (List JValue × List Char)
  | 0, _ => none
  | Nat.succ fuel, cs =>
    match parseValue fuel cs with
    | none => none
    | some (v, rest) =>
      match skipWs rest with
      | [] => none
      | d :: rest1 =>
        if d = Char.ofNat 44 then
          match parseItemsTail fuel (skipWs rest1) with
          | some (items, rest2) => some (v :: items, rest2)
          | none => none
        else if d = Char.ofNat 93 then some ([v], rest1)
        else none

/-- One-or-more comma-separated `"key":value` object members, ending at
the closing brace. -/
def parseFieldsTail : Nat → List Char → Option (List (String × JValue) × List Char)
  | 0, _ => none
  | Nat.succ fuel, cs =>
    match cs with
    | c :: rest =>
      if c = Char.ofNat 34 then
        match parseStringBody (rest.length + 1) rest with
        | none => none
        | some (key, rest1) =>
          match skipWs rest1 with
          | d :: rest2 =>
            if d = Char.ofNat 58 then
              match parseValue fuel (skipWs rest2) with
              | none => none
              | some (v, rest3) =>
                match skipWs rest3 with
                | e :: rest4 =>
                  if e = Char.ofNat 44 then
                    match parseFieldsTail fuel (skipWs rest4) with
                    | some (fields, rest5) => some ((key, v) :: fields, rest5)
                    | none => none
                  else if e = Char.ofNat 125 then some ([(key, v)], rest4)
                  else none
                | [] => none
            else none
          | [] => none
      else none
    | [] => none

end

/-- Modelled from the spec: `cJSON_Parse` — skip leading whitespace,
parse one JSON value, and (as in cJSON, which is not asked to require a
null terminator here) ignore any trailing input. -/
def cJSON_Parse (s : String) : Option JValue :=
  match parseValue (s.length * 2 + 8) (skipWs s.data) with
  | some (v, _) => some v
  | none => none

/-! ## Protocol codec (`mcp_protocol`, from `mcp_schema.c` part of the sources) -/

/-- `mcp_request_t` — one parsed inbound JSON-RPC message
(`mcp_protocol.h`).  The C struct is zero-initialized by `memset`; fields
the parser does not set keep the zero / `NULL` value modelled by `none`,
`0` and `false`. -/
structure mcp_request_t where
  jsonrpc : Option String
  id : Int
  method : String
  params : Option JValue
  id_is_valid : Bool
  is_notification : Bool

/-- `mcp_protocol_parse_request` (`mcp_schema.c`): parse the wire text
with `cJSON_Parse`; a missing or non-string `method` is a failure; a
present numeric `id` is captured with `id_is_valid = true`, anything else
leaves the message a notification with `id = 0`; `params`, when present,
is deep-copied (`cJSON_Duplicate` is the identity on immutable values).
`ESP_FAIL` is modelled by `none`; the `ESP_ERR_INVALID_ARG` path for NULL
pointer arguments is not modelled (the input here is always a string). -/
def mcp_protocol_parse_request (json_str : String) : Option mcp_request_t :=
  match cJSON_Parse json_str with
  | none => none
  | some root =>
    let jsonrpc : Option String :=
      match cJSON_GetObjectItem root "jsonrpc" with
      | some (JValue.str s) => some s
      | _ => none
    let idState : Int × Bool × Bool :=
      match cJSON_GetObjectItem root "id" with
      | some (JValue.num q) => (ratTrunc q, true, false)
      | _ => (0, false, true)
    match cJSON_GetObjectItem root "method" with
    | some (JValue.str m) =>
      some { jsonrpc := jsonrpc
             id := idState.1
             method := m
             params := cJSON_GetObjectItem root "params"
             id_is_valid := idState.2.1
             is_notification := idState.2.2 }
    | _ => none

/-- `mcp_protocol_create_response` (`mcp_schema.c`): the envelope
`jsonrpc`, `id`, `result`, with a JSON `null` result when the result
argument is `NULL`; serialized with `cJSON_PrintUnformatted`.  The
`NULL`-on-allocation-failure path is not modelled. -/
def mcp_protocol_create_response (id : Int) (result : Option JValue) : String :=
  printJson (JValue.obj
    [("jsonrpc", JValue.str "2.0"),
     ("id", JValue.num (id : Rat)),
     ("result", result.getD JValue.null)])

/-- `mcp_protocol_create_error` (`mcp_schema.c`): the envelope `jsonrpc`,
`id`, `error:(code, message)`, with `"Unknown error"` substituted for a
`NULL` message. -/
def mcp_protocol_create_error (id : Int) (code : Int) (message : Option String) : String :=
  printJson (JValue.obj
    [("jsonrpc", JValue.str "2.0"),
     ("id", JValue.num (id : Rat)),
     ("error", JValue.obj
       [("code", JValue.num (code : Rat)),
        ("message", JValue.str (message.getD "Unknown error"))])])

/-! ## Tool result model and argument accessors (`mcp_tool.c`) -/

/-- `mcp_tool_args_t` — the read-only view over the caller-supplied JSON
arguments; the wrapped cJSON pointer may be `NULL`. -/
structure mcp_tool_args_t where
  json : Option JValue

/-- `mcp_tool_result_t` — outcome of a handler invocation.  The
`_content_allocated` / `_error_allocated` bookkeeping flags only steer
manual memory management and are not modelled. -/
structure mcp_tool_result_t where
  success : Bool
  content : Option String
  error_message : Option String

/-- `mcp_tool_args_get_string` (`mcp_tool.c`): the string stored under
`key`, or the caller's default when the view, its JSON, or the key is
NULL, the key is absent, or the stored value is not a string. -/
def mcp_tool_args_get_string (args : Option mcp_tool_args_t) (key : Option String)
    (default_val : Option String) : Option String :=
  match args with
  | none => default_val
  | some a =>
    match a.json, key with
    | some j, some k =>
      match cJSON_GetObjectItem j k with
      | some (JValue.str s) => some s
      | _ => default_val
    | _, _ => default_val

/-- `mcp_tool_args_get_int` (`mcp_tool.c`): `item->valueint` — the stored
number truncated toward zero — or the caller's default in the same
fallback cases. -/
def mcp_tool_args_get_int (args : Option mcp_tool_args_t) (key : Option String)
    (default_val : Int) : Int :=
  match args with
  | none => default_val
  | some a =>
    match a.json, key with
    | some j, some k =>
      match cJSON_GetObjectItem j k with
      | some (JValue.num q) => ratTrunc q
      | _ => default_val
    | _, _ => default_val

/-- `mcp_tool_args_get_bool` (`mcp_tool.c`): `cJSON_IsTrue item` when the
stored value is a boolean, the caller's default otherwise. -/
def mcp_tool_args_get_bool (args : Option mcp_tool_args_t) (key : Option String)
    (default_val : Bool) : Bool :=
  match args with
  | none => default_val
  | some a =>
    match a.json, key with
    | some j, some k =>
      match cJSON_GetObjectItem j k with
      | some (JValue.bool b) => cJSON_IsTrue (JValue.bool b)
      | _ => default_val
    | _, _ => default_val

/-- `mcp_tool_args_get_double` (`mcp_tool.c`): `item->valuedouble` — the
stored number — or the caller's default in the same fallback cases. -/
def mcp_tool_args_get_double (args : Option mcp_tool_args_t) (key : Option String)
    (default_val : Rat) : Rat :=
  match args with
  | none => default_val
  | some a =>
    match a.json, key with
    | some j, some k =>
      match cJSON_GetObjectItem j k with
      | some (JValue.num q) => q
      | _ => default_val
    | _, _ => default_val

/-- `mcp_tool_result_to_json` (`mcp_tool.c`): success results become
`(content : [(type : "text", text : <content or "">)])`, failure results
become `(error : <message or "Unknown error">)`.  The NULL-result and
allocation-failure paths are not modelled. -/
def mcp_tool_result_to_json (result : mcp_tool_result_t) : JValue :=
  if result.success then
    JValue.obj [("content", JValue.arr
      [JValue.obj [("type", JValue.str "text"),
                   ("text", JValue.str (result.content.getD ""))]])]
  else
    JValue.obj [("error", JValue.str (result.error_message.getD "Unknown error"))]

/-! ## Schema engine (`mcp_schema.c`) -/

/-- `mcp_param_type_t` (`mcp_schema.h`). -/
inductive mcp_param_type_t where
  | MCP_TYPE_STRING
  | MCP_TYPE_NUMBER
  | MCP_TYPE_INTEGER
  | MCP_TYPE_BOOLEAN
  | MCP_TYPE_OBJECT
  | MCP_TYPE_ARRAY
  | MCP_TYPE_NULL
deriving DecidableEq, Repr

open mcp_param_type_t

/-- `param_type_to_string` (`mcp_schema.c`); the C `default:` arm is
unreachable for a well-typed enum and folds into the `MCP_TYPE_STRING`
case here. -/
def param_type_to_string : mcp_param_type_t → String
  | MCP_TYPE_STRING => "string"
  | MCP_TYPE_NUMBER => "number"
  | MCP_TYPE_INTEGER => "integer"
  | MCP_TYPE_BOOLEAN => "boolean"
  | MCP_TYPE_OBJECT => "object"
  | MCP_TYPE_ARRAY => "array"
  | MCP_TYPE_NULL => "null"

/-- `mcp_param_schema_t` (`mcp_schema.h`).  The C `double` bounds are
modelled as rationals, the C `int` lengths as `Int`; nullable `const
char*` members as `Option String`; the `enum_values` pointer/count pair as
an optional list plus the separate count the C code iterates with. -/
structure mcp_param_schema_t where
  name : Option String
  type : mcp_param_type_t
  description : Option String
  required : Bool
  minimum : Rat
  maximum : Rat
  has_minimum : Bool
  has_maximum : Bool
  min_length : Int
  max_length : Int
  pattern : Option String
  has_min_length : Bool
  has_max_length : Bool
  enum_values : Option (List String)
  enum_count : Nat

/-- The fields `mcp_schema_param_to_json` adds to the parameter object, in
the order the C code adds them: `type`; `description` if present; for
number/integer types `minimum`/`maximum` when the presence flags are set
(with the integer variant cast through `(int)`); for the string type
`minLength`/`maxLength` when set and `pattern` when present; and the
`enum` array when `enum_values` is non-NULL with a positive count. -/
def param_json_fields (schema : mcp_param_schema_t) : List (String × JValue) :=
  [("type", JValue.str (param_type_to_string schema.type))]
  ++ (match schema.description with
      | some d => [("description", JValue.str d)]
      | none => [])
  ++ (if schema.type = MCP_TYPE_NUMBER ∨ schema.type = MCP_TYPE_INTEGER then
        (if schema.has_minimum then
           [("minimum", JValue.num (if schema.type = MCP_TYPE_INTEGER then
               ((ratTrunc schema.minimum : Int) : Rat) else schema.minimum))]
         else [])
        ++ (if schema.has_maximum then
           [("maximum", JValue.num (if schema.type = MCP_TYPE_INTEGER then
               ((ratTrunc schema.maximum : Int) : Rat) else schema.maximum))]
         else [])
      else [])
  ++ (if schema.type = MCP_TYPE_STRING then
        (if schema.has_min_length then [("minLength", JValue.num (schema.min_length : Rat))] else [])
        ++ (if schema.has_max_length then [("maxLength", JValue.num (schema.max_length : Rat))] else [])
        ++ (match schema.pattern with
            | some p => [("pattern", JValue.str p)]
            | none => [])
      else [])
  ++ (match schema.enum_values with
      | some evs =>
        if schema.enum_count > 0 then
          [("enum", JValue.arr ((evs.take schema.enum_count).map JValue.str))]
        else []
      | none => [])

/-- `mcp_schema_param_to_json` (`mcp_schema.c`): `NULL` for a schema with
no name, otherwise the JSON object with the fields of
`param_json_fields`.  (The C code reads `enum_values[i]` for
`i < enum_count`; the model reads the first `enum_count` list entries.) -/
def mcp_schema_param_to_json (schema : mcp_param_schema_t) : Option JValue :=
  match schema.name with
  | none => none
  | some _ => some (JValue.obj (param_json_fields schema))

/-- `mcp_schema_to_json` (`mcp_schema.c`): the
`(type : "object", properties, required)` input-schema object over the
first `count` parameters; a parameter whose conversion fails (no name) is
skipped, both in `properties` and in `required`. -/
def mcp_schema_to_json (parameters : List mcp_param_schema_t) (count : Nat) : JValue :=
  let step := (parameters.take count).foldl
    (fun (acc : List (String × JValue) × List JValue) p =>
      match mcp_schema_param_to_json p with
      | some pj =>
        (acc.1 ++ [(p.name.getD "", pj)],
         acc.2 ++ (if p.required then [JValue.str (p.name.getD "")] else []))
      | none => acc)
    ([], [])
  JValue.obj
    [("type", JValue.str "object"),
     ("properties", JValue.obj step.1),
     ("required", JValue.arr step.2)]

/-! ## Server orchestrator (`mcp_server.c`) -/

/-- `esp_err_t` values the MCP server code returns. -/
inductive EspErr where
  | ESP_OK
  | ESP_FAIL
  | ESP_ERR_INVALID_ARG
  | ESP_ERR_INVALID_STATE
  | ESP_ERR_NO_MEM
deriving DecidableEq, Repr

open EspErr

/-- `MAX_TOOLS` (`mcp_server.c`). -/
def MAX_TOOLS : Nat := 32

/-- `tool_entry_t` (`mcp_server.c`): the registry-owned copy of a
registered tool.  `name` is a `strdup` copy and never NULL in a live
entry; `description` may be NULL; the handler is a function from the
arguments view to a result; the parameter array is aliased, not copied. -/
structure tool_entry_t where
  name : String
  description : Option String
  handler : mcp_tool_args_t → mcp_tool_result_t
  parameters : Option (List mcp_param_schema_t)
  parameter_count : Nat

/-- `mcp_tool_definition_t` (`mcp_tool.h`): the caller-supplied
definition; `name` and `handler` are nullable pointers the registry
validates. -/
structure mcp_tool_definition_t where
  name : Option String
  description : Option String
  handler : Option (mcp_tool_args_t → mcp_tool_result_t)
  parameters : Option (List mcp_param_schema_t)
  parameter_count : Nat

/-- `struct mcp_server` (`mcp_server.c`): registry (the `tools` array and
`tool_count` are modelled together as a list of at most `MAX_TOOLS` live
entries), lifecycle flag, handshake state.  The owned transport pointer
is modelled at the call sites that use it (see `transport_behavior`). -/
structure mcp_server_t where
  tools : List tool_entry_t
  is_running : Bool
  is_initialized : Bool
  protocol_version : Option String
  client_name : Option String

/-- `find_tool` (`mcp_server.c`): NULL for a NULL server/name, otherwise
the first registry entry whose name matches by `strcmp` (case-sensitive,
exact). -/
def find_tool (server : mcp_server_t) (name : Option String) : Option tool_entry_t :=
  match name with
  | none => none
  | some n => server.tools.find? fun t => t.name == n

/-- `mcp_server_register_tool` (`mcp_server.c`): `ESP_ERR_INVALID_ARG`
for a NULL definition, name or handler; `ESP_ERR_INVALID_STATE` when a
same-named tool already exists; `ESP_ERR_NO_MEM` at `MAX_TOOLS`
capacity; otherwise the entry is appended (name and description
duplicated, parameters aliased) and `tool_count` incremented.  The
`strdup`-failure `ESP_ERR_NO_MEM` path is not modelled (allocation always
succeeds in the model). -/
def mcp_server_register_tool (server : mcp_server_t) (tool : Option mcp_tool_definition_t) :
    EspErr × mcp_server_t :=
  match tool with
  | none => (ESP_ERR_INVALID_ARG, server)
  | some t =>
    match t.name, t.handler with
    | some n, some h =>
      if (find_tool server (some n)).isSome then (ESP_ERR_INVALID_STATE, server)
      else if MAX_TOOLS ≤ server.tools.length then (ESP_ERR_NO_MEM, server)
      else (ESP_OK, { server with tools := server.tools ++
        [{ name := n, description := t.description, handler := h,
           parameters := t.parameters, parameter_count := t.parameter_count }] })
    | _, _ => (ESP_ERR_INVALID_ARG, server)

/-- `mcp_server_get_tool_count` (`mcp_server.c`). -/
def mcp_server_get_tool_count (server : Option mcp_server_t) : Nat :=
  match server with
  | some s => s.tools.length
  | none => 0

/-- `mcp_server_has_tool` (`mcp_server.c`). -/
def mcp_server_has_tool (server : mcp_server_t) (name : Option String) : Bool :=
  (find_tool server name).isSome

/-- Modelled from the spec: the outcome of the transport's `init` and
`start` capabilities for one `mcp_server_start` call.  The concrete HTTP
transport's socket machinery is an external collaborator ("any component
implementing the transport contract"); only the `esp_err_t` results the
orchestrator branches on are modelled. -/
structure transport_behavior where
  init_result : EspErr
  start_result : EspErr

/-- One call the orchestrator makes into the transport vtable. -/
inductive transport_call where
  | init (port : Nat)
  | start
  | stop
  | send_response (response : String)
deriving DecidableEq, Repr

/-- `mcp_server_start` (`mcp_server.c`): `ESP_ERR_INVALID_STATE` when
already running (no transport call is made); otherwise `init port` then
`start` are delegated to the transport, and either failure is returned
with `is_running` left false; on success `is_running` is set.  The
returned trace lists the transport calls made.  The NULL-server
`ESP_ERR_INVALID_ARG` path is not modelled. -/
def mcp_server_start (server : mcp_server_t) (port : Nat) (tr : transport_behavior) :
    EspErr × mcp_server_t × List transport_call :=
  if server.is_running then (ESP_ERR_INVALID_STATE, server, [])
  else if tr.init_result ≠ ESP_OK then (tr.init_result, server, [transport_call.init port])
  else if tr.start_result ≠ ESP_OK then
    (tr.start_result, server, [transport_call.init port, transport_call.start])
  else (ESP_OK, { server with is_running := true },
    [transport_call.init port, transport_call.start])

/-- `handle_initialize` (`mcp_server.c`): capture `protocolVersion` and
`clientInfo.name` from the params when they are strings, then send one
response whose result carries `capabilities.tools = ()`, the static
`serverInfo`, and the captured (or default `"2024-11-05"`) protocol
version.  The cJSON allocation-failure `-32603` path is not modelled. -/
def handle_initialize (server : mcp_server_t) (params : Option JValue) (request_id : Int) :
    mcp_server_t × List String :=
  let server1 : mcp_server_t :=
    match params with
    | none => server
    | some p =>
      let sv : mcp_server_t :=
        match cJSON_GetObjectItem p "protocolVersion" with
        | some (JValue.str v) => { server with protocol_version := some v }
        | _ => server
      match cJSON_GetObjectItem p "clientInfo" with
      | some ci =>
        match cJSON_GetObjectItem ci "name" with
        | some (JValue.str n) => { sv with client_name := some n }
        | _ => sv
      | none => sv
  let result := JValue.obj
    [("capabilities", JValue.obj [("tools", JValue.obj [])]),
     ("serverInfo", JValue.obj
       [("name", JValue.str "ESP32 MCP Server"), ("version", JValue.str "1.0.0")]),
     ("protocolVersion", JValue.str (server1.protocol_version.getD "2024-11-05"))]
  (server1, [mcp_protocol_create_response request_id (some result)])

/-- `handle_list_tools` (`mcp_server.c`): one success response whose
result wraps, for every registered tool in order, `name`, the optional
`description`, and an `inputSchema` — generated by the schema engine when
the tool has parameters, a bare `(type : "object", properties : ())`
otherwise.  Allocation-failure paths are not modelled. -/
def handle_list_tools (server : mcp_server_t) (request_id : Int) : List String :=
  let tools_array := JValue.arr (server.tools.map fun t =>
    let schema : JValue :=
      match t.parameters with
      | some ps =>
        if 0 < t.parameter_count then mcp_schema_to_json ps t.parameter_count
        else JValue.obj [("type", JValue.str "object"), ("properties", JValue.obj [])]
      | none => JValue.obj [("type", JValue.str "object"), ("properties", JValue.obj [])]
    JValue.obj
      ([("name", JValue.str t.name)]
       ++ (match t.description with
           | some d => [("description", JValue.str d)]
           | none => [])
       ++ [("inputSchema", schema)]))
  [mcp_protocol_create_response request_id (some (JValue.obj [("tools", tools_array)]))]

/-- `handle_call_tool` (`mcp_server.c`): look the tool up (no
`is_initialized` check — the lenient-handshake comment in the source);
unknown names get the `-32602 "Tool not found"` error; otherwise the
handler runs on the arguments view and its result, converted by
`mcp_tool_result_to_json`, is sent as one success response. -/
def handle_call_tool (server : mcp_server_t) (tool_name : String) (args : Option JValue)
    (request_id : Int) : List String :=
  match find_tool server (some tool_name) with
  | none => [mcp_protocol_create_error request_id (-32602) (some "Tool not found")]
  | some tool =>
    let result := tool.handler { json := args }
    [mcp_protocol_create_response request_id (some (mcp_tool_result_to_json result))]

/-- `handle_request` (`mcp_server.c`), the dispatch routine: parse, then
route on the method — `initialize`, `notifications/initialized` (sets
`is_initialized` and acknowledges with the bare `()` text),
`tools/list`, `tools/call` (name extraction, then `handle_call_tool`),
and the `-32601` fallback; a parse failure is answered with
`-32700 "Parse error"` under id 0.  The returned list is the sequence of
`send_response` payloads.  The NULL-server/request guard and the
request-release bookkeeping are not modelled. -/
def handle_request (server : mcp_server_t) (request : String) : mcp_server_t × List String :=
  match mcp_protocol_parse_request request with
  | none => (server, [mcp_protocol_create_error 0 (-32700) (some "Parse error")])
  | some req =>
    if req.method = "initialize" then handle_initialize server req.params req.id
    else if req.method = "notifications/initialized" then
      ({ server with is_initialized := true }, ["\x7b\x7d"])
    else if req.method = "tools/list" then (server, handle_list_tools server req.id)
    else if req.method = "tools/call" then
      let tool_name : Option String := req.params.bind fun p =>
        match cJSON_GetObjectItem p "name" with
        | some (JValue.str s) => some s
        | _ => none
      let arguments : Option JValue := req.params.bind fun p => cJSON_GetObjectItem p "arguments"
      match tool_name with
      | none => (server, [mcp_protocol_create_error req.id (-32602) (some "Missing 'name' parameter")])
      | some n => (server, handle_call_tool server n arguments req.id)
    else (server, [mcp_protocol_create_error req.id (-32601) (some "Method not found")])

/-! ## Helper lemmas -/

/-- The printed form of a success envelope with a present result. -/
theorem create_response_some_str (id : Int) (result : JValue) :
    mcp_protocol_create_response id (some result) =
      "\x7b\"jsonrpc\":\"2.0\",\"id\":" ++ toString id ++ ",\"result\":" ++ printJson result ++ "\x7d" := by
  refine String.ext ?_
  simp only [mcp_protocol_create_response, printJson, printFields, Option.getD,
    String.data_append, List.append_assoc]
  rfl

/-- The printed form of a success envelope with an absent result. -/
theorem create_response_none_str (id : Int) :
    mcp_protocol_create_response id none =
      "\x7b\"jsonrpc\":\"2.0\",\"id\":" ++ toString id ++ ",\"result\":null\x7d" := by
  refine String.ext ?_
  simp only [mcp_protocol_create_response, printJson, printFields, Option.getD,
    String.data_append, List.append_assoc]
  rfl

/-- The printed form of an error envelope. -/
theorem create_error_str (id : Int) (code : Int) (msg : String) :
    mcp_protocol_create_error id code (some msg) =
      "\x7b\"jsonrpc\":\"2.0\",\"id\":" ++ toString id ++ ",\"error\":\x7b\"code\":" ++
        toString code ++ ",\"message\":" ++ printStringLit msg ++ "\x7d\x7d" := by
  refine String.ext ?_
  simp only [mcp_protocol_create_error, printJson, printFields, Option.getD,
    String.data_append, List.append_assoc]
  rfl

/-- A `find?` miss on the first list segment passes through an append. -/
theorem find?_append_of_none {α : Type} (p : α → Bool) (l₁ l₂ : List α)
    (h : l₁.find? p = none) : (l₁ ++ l₂).find? p = l₂.find? p := by
  induction l₁ with
  | nil => simp
  | cons a l ih =>
    by_cases hpa : p a = true
    · rw [List.find?_cons_of_pos _ hpa] at h
      cases h
    · rw [List.find?_cons_of_neg _ hpa] at h
      rw [List.cons_append, List.find?_cons_of_neg _ hpa]
      exact ih h

/-! ## Claim theorems -/

/-- C9: `create_response id result` produces the envelope
`(jsonrpc : "2.0", id, result)` serialized without whitespace, with the
result rendered as JSON `null` when absent; in particular
`create_response 5 NULL` is exactly the claimed string. -/
theorem C9_create_response_envelope :
    (∀ (id : Int) (result : JValue),
      mcp_protocol_create_response id (some result) =
        "\x7b\"jsonrpc\":\"2.0\",\"id\":" ++ toString id ++ ",\"result\":" ++ printJson result ++ "\x7d") ∧
    (∀ id : Int,
      mcp_protocol_create_response id none =
        "\x7b\"jsonrpc\":\"2.0\",\"id\":" ++ toString id ++ ",\"result\":null\x7d") ∧
    mcp_protocol_create_response 5 none = "\x7b\"jsonrpc\":\"2.0\",\"id\":5,\"result\":null\x7d" :=
  ⟨create_response_some_str, create_response_none_str, rfl⟩

/-- C8: starting an already-running server is an invalid-state error that
makes no transport call and changes no state; a transport `init` or
`start` failure is returned as-is and `is_running` stays false (the whole
server state is in fact unchanged). -/
theorem C8_start_lifecycle (server : mcp_server_t) (port : Nat) (tr : transport_behavior) :
    (server.is_running = true →
      mcp_server_start server port tr = (EspErr.ESP_ERR_INVALID_STATE, server, [])) ∧
    (server.is_running = false → tr.init_result ≠ EspErr.ESP_OK →
      mcp_server_start server port tr = (tr.init_result, server, [transport_call.init port])) ∧
    (server.is_running = false → tr.init_result = EspErr.ESP_OK →
      tr.start_result ≠ EspErr.ESP_OK →
      mcp_server_start server port tr =
        (tr.start_result, server, [transport_call.init port, transport_call.start])) := by
  refine ⟨fun h => ?_, fun h hi => ?_, fun h hi hs => ?_⟩
  · simp [mcp_server_start, h]
  · simp [mcp_server_start, h, hi]
  · simp [mcp_server_start, h, hi, hs]

/-- An idle server with no tools, used to instantiate lifecycle and
registry properties. -/
def empty_server : mcp_server_t :=
  { tools := [], is_running := false, is_initialized := false,
    protocol_version := none, client_name := none }

/-- `empty_server` after a successful start. -/
def running_server : mcp_server_t := { empty_server with is_running := true }

/-- Witness for C8 at concrete states: a running server is refused
without transport calls, and an idle server propagates an `init`
failure. -/
theorem C8_start_lifecycle_witness :
    mcp_server_start running_server 8080 ⟨EspErr.ESP_OK, EspErr.ESP_OK⟩ =
      (EspErr.ESP_ERR_INVALID_STATE, running_server, []) ∧
    mcp_server_start empty_server 8080 ⟨EspErr.ESP_FAIL, EspErr.ESP_OK⟩ =
      (EspErr.ESP_FAIL, empty_server, [transport_call.init 8080]) :=
  ⟨(C8_start_lifecycle running_server 8080 ⟨EspErr.ESP_OK, EspErr.ESP_OK⟩).1 rfl,
   (C8_start_lifecycle empty_server 8080 ⟨EspErr.ESP_FAIL, EspErr.ESP_OK⟩).2.1 rfl (by decide)⟩

/-- C5: with the registry at its `MAX_TOOLS = 32` capacity, registering a
valid definition under a fresh name returns `ESP_ERR_NO_MEM`
(CapacityExceeded) and leaves the server — tool count and every entry —
unchanged. -/
theorem C5_capacity_exceeded (server : mcp_server_t) (t : mcp_tool_definition_t) (n : String)
    (hlen : server.tools.length = MAX_TOOLS)
    (hname : t.name = some n)
    (hhandler : t.handler.isSome = true)
    (hfresh : find_tool server (some n) = none) :
    mcp_server_register_tool server (some t) = (EspErr.ESP_ERR_NO_MEM, server) := by
  obtain ⟨h, hh⟩ := Option.isSome_iff_exists.mp hhandler
  simp [mcp_server_register_tool, hname, hh, hfresh, hlen]

/-- Handler used by concrete registry instances below. -/
def dummy_handler : mcp_tool_args_t → mcp_tool_result_t :=
  fun _ => { success := true, content := none, error_message := none }

/-- A server whose registry is at the 32-tool capacity. -/
def full_server : mcp_server_t :=
  { tools := (List.range MAX_TOOLS).map fun i =>
      { name := "tool" ++ Nat.repr i, description := none, handler := dummy_handler,
        parameters := none, parameter_count := 0 },
    is_running := false, is_initialized := false,
    protocol_version := none, client_name := none }

/-- A valid tool definition whose name is registered nowhere below. -/
def fresh_def : mcp_tool_definition_t :=
  { name := some "frobnicate", description := none, handler := some dummy_handler,
    parameters := none, parameter_count := 0 }

/-- Witness for C5: the concrete 32-tool server refuses `frobnicate`
with `ESP_ERR_NO_MEM` and is returned unchanged. -/
theorem C5_capacity_exceeded_witness :
    mcp_server_register_tool full_server (some fresh_def) = (EspErr.ESP_ERR_NO_MEM, full_server) :=
  C5_capacity_exceeded full_server fresh_def "frobnicate" rfl rfl rfl rfl

/-- C4 (amended): registering a definition with a missing name or handler
returns `ESP_ERR_INVALID_ARG`; a (case-sensitively) duplicate name
returns `ESP_ERR_INVALID_STATE` (AlreadyExists) with the registry
unchanged; and — provided the registry is below its 32-tool capacity —
a valid definition with a fresh name registers successfully, after which
`has(name)` is true. -/
theorem C4_register_tool_rules (server : mcp_server_t) (t : mcp_tool_definition_t) :
    (t.name = none → mcp_server_register_tool server (some t) = (EspErr.ESP_ERR_INVALID_ARG, server)) ∧
    (t.handler = none → mcp_server_register_tool server (some t) = (EspErr.ESP_ERR_INVALID_ARG, server)) ∧
    (∀ n, t.name = some n → t.handler.isSome = true →
      mcp_server_has_tool server (some n) = true →
      mcp_server_register_tool server (some t) = (EspErr.ESP_ERR_INVALID_STATE, server)) ∧
    (∀ n, t.name = some n → t.handler.isSome = true →
      mcp_server_has_tool server (some n) = false →
      server.tools.length < MAX_TOOLS →
      (mcp_server_register_tool server (some t)).1 = EspErr.ESP_OK ∧
      mcp_server_has_tool (mcp_server_register_tool server (some t)).2 (some n) = true) := by
  refine ⟨fun hn => ?_, fun hh => ?_, fun n hn hh hdup => ?_, fun n hn hh hfresh hcap => ?_⟩
  · simp [mcp_server_register_tool, hn]
  · cases ht : t.name <;> simp [mcp_server_register_tool, ht, hh]
  · obtain ⟨h, hh'⟩ := Option.isSome_iff_exists.mp hh
    have : (find_tool server (some n)).isSome = true := by
      simpa [mcp_server_has_tool] using hdup
    simp [mcp_server_register_tool, hn, hh', this]
  · obtain ⟨h, hh'⟩ := Option.isSome_iff_exists.mp hh
    have hfind : find_tool server (some n) = none := by
      simpa [mcp_server_has_tool, Option.isSome_iff_exists] using hfresh
    have hfind' : server.tools.find? (fun e => e.name == n) = none := by
      simpa [find_tool] using hfind
    constructor
    · simp [mcp_server_register_tool, hn, hh', hfind, Nat.not_le.mpr hcap]
    · simp only [mcp_server_register_tool, hn, hh', hfind, Option.isSome_none,
        Bool.false_eq_true, if_false, Nat.not_le.mpr hcap, if_neg (Nat.not_le.mpr hcap)]
      simp only [mcp_server_has_tool, find_tool,
        find?_append_of_none _ _ _ hfind', List.find?_cons, beq_self_eq_true]
      rfl

/-- C4 counterexample: at full capacity the claim's unconditional
"registering a valid definition with a fresh name succeeds" fails —
`frobnicate` is absent from the 32-tool registry, its definition has a
name and a handler, yet registration returns `ESP_ERR_NO_MEM` and
`has("frobnicate")` stays false. -/
theorem C4_register_tool_counterexample :
    fresh_def.name = some "frobnicate" ∧
    fresh_def.handler.isSome = true ∧
    mcp_server_has_tool full_server (some "frobnicate") = false ∧
    (mcp_server_register_tool full_server (some fresh_def)).1 = EspErr.ESP_ERR_NO_MEM ∧
    mcp_server_has_tool (mcp_server_register_tool full_server (some fresh_def)).2
      (some "frobnicate") = false :=
  ⟨rfl, rfl, rfl, rfl, rfl⟩

/-- Witness for C4 at a concrete state: on the empty registry the fresh
`frobnicate` definition registers with `ESP_OK`, after which the tool is
present. -/
theorem C4_register_tool_rules_witness :
    (mcp_server_register_tool empty_server (some fresh_def)).1 = EspErr.ESP_OK ∧
    mcp_server_has_tool (mcp_server_register_tool empty_server (some fresh_def)).2
      (some "frobnicate") = true :=
  (C4_register_tool_rules empty_server fresh_def).2.2.2 "frobnicate" rfl rfl rfl (by decide)

/-- C10: each `mcp_tool_args_get_*` accessor is a total function that
returns the caller-supplied default whenever the view is NULL, the view
carries no JSON, the key is NULL, the key is absent, or the stored value
has a different JSON type than requested — and otherwise returns the
stored value (for `get_int`, the stored number as cJSON stores it in
`valueint`, truncated toward zero; for `get_bool`, the truth of the
stored boolean node).  No accessor signals an error. -/
theorem C10_args_accessors_total :
    ((∀ key dflt, mcp_tool_args_get_string none key dflt = dflt) ∧
     (∀ key dflt, mcp_tool_args_get_string (some { json := none }) key dflt = dflt) ∧
     (∀ a dflt, mcp_tool_args_get_string (some a) none dflt = dflt) ∧
     (∀ j k dflt, cJSON_GetObjectItem j k = none →
       mcp_tool_args_get_string (some { json := some j }) (some k) dflt = dflt) ∧
     (∀ j k v dflt, cJSON_GetObjectItem j k = some v → cJSON_IsString v = false →
       mcp_tool_args_get_string (some { json := some j }) (some k) dflt = dflt) ∧
     (∀ j k s dflt, cJSON_GetObjectItem j k = some (JValue.str s) →
       mcp_tool_args_get_string (some { json := some j }) (some k) dflt = some s)) ∧
    ((∀ key dflt, mcp_tool_args_get_int none key dflt = dflt) ∧
     (∀ key dflt, mcp_tool_args_get_int (some { json := none }) key dflt = dflt) ∧
     (∀ a dflt, mcp_tool_args_get_int (some a) none dflt = dflt) ∧
     (∀ j k dflt, cJSON_GetObjectItem j k = none →
       mcp_tool_args_get_int (some { json := some j }) (some k) dflt = dflt) ∧
     (∀ j k v dflt, cJSON_GetObjectItem j k = some v → cJSON_IsNumber v = false →
       mcp_tool_args_get_int (some { json := some j }) (some k) dflt = dflt) ∧
     (∀ j k q dflt, cJSON_GetObjectItem j k = some (JValue.num q) →
       mcp_tool_args_get_int (some { json := some j }) (some k) dflt = ratTrunc q)) ∧
    ((∀ key dflt, mcp_tool_args_get_bool none key dflt = dflt) ∧
     (∀ key dflt, mcp_tool_args_get_bool (some { json := none }) key dflt = dflt) ∧
     (∀ a dflt, mcp_tool_args_get_bool (some a) none dflt = dflt) ∧
     (∀ j k dflt, cJSON_GetObjectItem j k = none →
       mcp_tool_args_get_bool (some { json := some j }) (some k) dflt = dflt) ∧
     (∀ j k v dflt, cJSON_GetObjectItem j k = some v → cJSON_IsBool v = false →
       mcp_tool_args_get_bool (some { json := some j }) (some k) dflt = dflt) ∧
     (∀ j k b dflt, cJSON_GetObjectItem j k = some (JValue.bool b) →
       mcp_tool_args_get_bool (some { json := some j }) (some k) dflt = b)) ∧
    ((∀ key dflt, mcp_tool_args_get_double none key dflt = dflt) ∧
     (∀ key dflt, mcp_tool_args_get_double (some { json := none }) key dflt = dflt) ∧
     (∀ a dflt, mcp_tool_args_get_double (some a) none dflt = dflt) ∧
     (∀ j k dflt, cJSON_GetObjectItem j k = none →
       mcp_tool_args_get_double (some { json := some j }) (some k) dflt = dflt) ∧
     (∀ j k v dflt, cJSON_GetObjectItem j k = some v → cJSON_IsNumber v = false →
       mcp_tool_args_get_double (some { json := some j }) (some k) dflt = dflt) ∧
     (∀ j k q dflt, cJSON_GetObjectItem j k = some (JValue.num q) →
       mcp_tool_args_get_double (some { json := some j }) (some k) dflt = q)) := by
  refine ⟨⟨fun key dflt => rfl, fun key dflt => rfl, fun a dflt => ?_,
           fun j k dflt h => ?_, fun j k v dflt h hv => ?_, fun j k s dflt h => ?_⟩,
          ⟨fun key dflt => rfl, fun key dflt => rfl, fun a dflt => ?_,
           fun j k dflt h => ?_, fun j k v dflt h hv => ?_, fun j k q dflt h => ?_⟩,
          ⟨fun key dflt => rfl, fun key dflt => rfl, fun a dflt => ?_,
           fun j k dflt h => ?_, fun j k v dflt h hv => ?_, fun j k b dflt h => ?_⟩,
          ⟨fun key dflt => rfl, fun key dflt => rfl, fun a dflt => ?_,
           fun j k dflt h => ?_, fun j k v dflt h hv => ?_, fun j k q dflt h => ?_⟩⟩
  · obtain ⟨js⟩ := a
    cases js <;> rfl
  · simp [mcp_tool_args_get_string, h]
  · cases v <;> simp_all [mcp_tool_args_get_string, cJSON_IsString]
  · simp [mcp_tool_args_get_string, h]
  · obtain ⟨js⟩ := a
    cases js <;> rfl
  · simp [mcp_tool_args_get_int, h]
  · cases v <;> simp_all [mcp_tool_args_get_int, cJSON_IsNumber]
  · simp [mcp_tool_args_get_int, h]
  · obtain ⟨js⟩ := a
    cases js <;> rfl
  · simp [mcp_tool_args_get_bool, h]
  · cases v <;> simp_all [mcp_tool_args_get_bool, cJSON_IsBool]
  · cases b <;> simp [mcp_tool_args_get_bool, h, cJSON_IsTrue]
  · obtain ⟨js⟩ := a
    cases js <;> rfl
  · simp [mcp_tool_args_get_double, h]
  · cases v <;> simp_all [mcp_tool_args_get_double, cJSON_IsNumber]
  · simp [mcp_tool_args_get_double, h]

/-- Witness for C10 on a concrete arguments object: the stored string is
returned by `get_string`, and the type-mismatching `get_int` on the same
key falls back to the caller's default. -/
theorem C10_args_accessors_total_witness :
    mcp_tool_args_get_string
      (some { json := some (JValue.obj [("k", JValue.str "v")]) }) (some "k") none = some "v" ∧
    mcp_tool_args_get_int
      (some { json := some (JValue.obj [("k", JValue.str "v")]) }) (some "k") 7 = 7 :=
  ⟨C10_args_accessors_total.1.2.2.2.2.2 (JValue.obj [("k", JValue.str "v")]) "k" "v" none rfl,
   C10_args_accessors_total.2.1.2.2.2.2.1 (JValue.obj [("k", JValue.str "v")]) "k"
     (JValue.str "v") 7 rfl rfl⟩

/-- The well-formed sample envelope of the spec. -/
def sample_request_text : String := "\x7b\"jsonrpc\":\"2.0\",\"id\":7,\"method\":\"tools/list\"\x7d"

/-- The method-less sample body of the spec. -/
def methodless_text : String := "\x7b\"jsonrpc\":\"2.0\",\"id\":1\x7d"

/-- C2: `parse_request` succeeds exactly when the input is well-formed
JSON containing a string `method` field; on success a present numeric
`id` is captured with `id_is_valid = true` and `is_notification = false`,
an absent or non-numeric `id` leaves a notification with `id = 0`, and
`params` is the (deep-copied) `params` member when present and NULL
otherwise; the spec's two concrete vectors parse as claimed. -/
theorem C2_parse_request_correct :
    (∀ raw, cJSON_Parse raw = none → mcp_protocol_parse_request raw = none) ∧
    (∀ raw root, cJSON_Parse raw = some root →
      (((mcp_protocol_parse_request raw).isSome = true) ↔
        ∃ m, cJSON_GetObjectItem root "method" = some (JValue.str m)) ∧
      (∀ req, mcp_protocol_parse_request raw = some req →
        req.params = cJSON_GetObjectItem root "params" ∧
        (∀ q, cJSON_GetObjectItem root "id" = some (JValue.num q) →
          req.id = ratTrunc q ∧ req.id_is_valid = true ∧ req.is_notification = false) ∧
        ((∀ q, cJSON_GetObjectItem root "id" ≠ some (JValue.num q)) →
          req.id = 0 ∧ req.id_is_valid = false ∧ req.is_notification = true))) ∧
    mcp_protocol_parse_request sample_request_text =
      some { jsonrpc := some "2.0", id := 7, method := "tools/list", params := none,
             id_is_valid := true, is_notification := false } ∧
    mcp_protocol_parse_request methodless_text = none := by
  refine ⟨fun raw h => by simp [mcp_protocol_parse_request, h],
          fun raw root h => ⟨?_, ?_⟩, by rfl, by rfl⟩
  · simp only [mcp_protocol_parse_request, h]
    rcases hm : cJSON_GetObjectItem root "method" with _ | m
    · simp
    · cases m <;> simp
  · intro req hreq
    simp only [mcp_protocol_parse_request, h] at hreq
    rcases hm : cJSON_GetObjectItem root "method" with _ | m <;> rw [hm] at hreq
    · simp at hreq
    · cases m <;> simp at hreq
      obtain rfl := hreq.symm
      refine ⟨rfl, fun q hq => ?_, fun hnot => ?_⟩
      · simp [hq]
      · rcases hid : cJSON_GetObjectItem root "id" with _ | v
        · simp [hid]
        · cases v <;> simp [hid]
          exact absurd hid (hnot _)

/-- Witness for C2: the sample envelope is well-formed JSON with a string
method, so parsing it succeeds. -/
theorem C2_parse_request_correct_witness :
    (mcp_protocol_parse_request sample_request_text).isSome = true :=
  ((C2_parse_request_correct.2.1 sample_request_text
    (JValue.obj [("jsonrpc", JValue.str "2.0"), ("id", JValue.num 7),
                 ("method", JValue.str "tools/list")]) rfl).1).mpr ⟨"tools/list", rfl⟩

/-- C3: the dispatch routine answers unparseable input with
`-32700 "Parse error"` under id 0; a `tools/call` whose params lack a
string `name` with `-32602 "Missing 'name' parameter"`; a `tools/call`
naming an unregistered tool with `-32602 "Tool not found"`; and any
method outside the four routed ones with `-32601 "Method not found"` —
the latter three under the parsed request's id. -/
theorem C3_dispatch_errors (server : mcp_server_t) (raw : String) :
    (mcp_protocol_parse_request raw = none →
      (handle_request server raw).2 = [mcp_protocol_create_error 0 (-32700) (some "Parse error")]) ∧
    (∀ req, mcp_protocol_parse_request raw = some req → req.method = "tools/call" →
      (req.params.bind fun p =>
        match cJSON_GetObjectItem p "name" with
        | some (JValue.str s) => some s
        | _ => none) = none →
      (handle_request server raw).2 =
        [mcp_protocol_create_error req.id (-32602) (some "Missing 'name' parameter")]) ∧
    (∀ req n, mcp_protocol_parse_request raw = some req → req.method = "tools/call" →
      (req.params.bind fun p =>
        match cJSON_GetObjectItem p "name" with
        | some (JValue.str s) => some s
        | _ => none) = some n →
      find_tool server (some n) = none →
      (handle_request server raw).2 =
        [mcp_protocol_create_error req.id (-32602) (some "Tool not found")]) ∧
    (∀ req, mcp_protocol_parse_request raw = some req →
      req.method ≠ "initialize" → req.method ≠ "notifications/initialized" →
      req.method ≠ "tools/list" → req.method ≠ "tools/call" →
      (handle_request server raw).2 =
        [mcp_protocol_create_error req.id (-32601) (some "Method not found")]) := by
  refine ⟨fun h => by simp [handle_request, h],
          fun req hpr hm hname => ?_, fun req n hpr hm hname hfind => ?_,
          fun req hpr h1 h2 h3 h4 => ?_⟩
  · simp [handle_request, hpr, hm, hname]
  · simp [handle_request, hpr, hm, hname, handle_call_tool, hfind]
  · simp [handle_request, hpr, h1, h2, h3, h4]

/-- Witness for C3 at concrete inputs: a malformed body gets the parse
error, and the unregistered tool `frobnicate` gets the tool-not-found
error under the request's id. -/
theorem C3_dispatch_errors_witness :
    (handle_request empty_server "not json").2 =
      [mcp_protocol_create_error 0 (-32700) (some "Parse error")] ∧
    (handle_request empty_server
      "\x7b\"jsonrpc\":\"2.0\",\"id\":3,\"method\":\"tools/call\",\"params\":\x7b\"name\":\"frobnicate\"\x7d\x7d").2 =
      [mcp_protocol_create_error 3 (-32602) (some "Tool not found")] :=
  ⟨(C3_dispatch_errors empty_server "not json").1 rfl,
   (C3_dispatch_errors empty_server
      "\x7b\"jsonrpc\":\"2.0\",\"id\":3,\"method\":\"tools/call\",\"params\":\x7b\"name\":\"frobnicate\"\x7d\x7d").2.2.1
     { jsonrpc := some "2.0", id := 3, method := "tools/call",
       params := some (JValue.obj [("name", JValue.str "frobnicate")]),
       id_is_valid := true, is_notification := false }
     "frobnicate" rfl rfl rfl rfl⟩

/-- C1: for a registered tool, dispatching a `tools/call` naming it runs
that tool's handler on the supplied arguments view and sends exactly one
response — the JSON-RPC result being the `content`/text shape on handler
success and the `(error : message)` shape on handler failure — with no
registry mutation, and identically for either value of `is_initialized`
(the handshake notification need never have arrived). -/
theorem C1_tools_call_dispatch (server : mcp_server_t) (raw : String) (req : mcp_request_t)
    (n : String) (entry : tool_entry_t)
    (hpr : mcp_protocol_parse_request raw = some req)
    (hm : req.method = "tools/call")
    (hname : (req.params.bind fun p =>
        match cJSON_GetObjectItem p "name" with
        | some (JValue.str s) => some s
        | _ => none) = some n)
    (hfind : find_tool server (some n) = some entry) :
    (handle_request server raw).2 =
      [mcp_protocol_create_response req.id (some (mcp_tool_result_to_json
        (entry.handler { json := req.params.bind fun p => cJSON_GetObjectItem p "arguments" })))] ∧
    (handle_request server raw).1 = server ∧
    (∀ b, (handle_request { server with is_initialized := b } raw).2 =
      (handle_request server raw).2) ∧
    (∀ c, (entry.handler { json := req.params.bind fun p => cJSON_GetObjectItem p "arguments" }).success = true →
      (entry.handler { json := req.params.bind fun p => cJSON_GetObjectItem p "arguments" }).content = some c →
      mcp_tool_result_to_json
        (entry.handler { json := req.params.bind fun p => cJSON_GetObjectItem p "arguments" }) =
        JValue.obj [("content", JValue.arr
          [JValue.obj [("type", JValue.str "text"), ("text", JValue.str c)]])]) ∧
    (∀ e, (entry.handler { json := req.params.bind fun p => cJSON_GetObjectItem p "arguments" }).success = false →
      (entry.handler { json := req.params.bind fun p => cJSON_GetObjectItem p "arguments" }).error_message = some e →
      mcp_tool_result_to_json
        (entry.handler { json := req.params.bind fun p => cJSON_GetObjectItem p "arguments" }) =
        JValue.obj [("error", JValue.str e)]) := by
  have hfind' : server.tools.find? (fun t => t.name == n) = some entry := by
    simpa [find_tool] using hfind
  refine ⟨?_, ?_, fun b => ?_, fun c hs hc => ?_, fun e hs he => ?_⟩
  · simp [handle_request, hpr, hm, hname, handle_call_tool, find_tool, hfind']
  · simp [handle_request, hpr, hm, hname, handle_call_tool, find_tool, hfind']
  · simp [handle_request, hpr, hm, hname, handle_call_tool, find_tool, hfind']
  · simp [mcp_tool_result_to_json, hs, hc]
  · simp [mcp_tool_result_to_json, hs, he]

/-- The `hello_world` example handler: always succeeds with a fixed
greeting. -/
def hello_handler : mcp_tool_args_t → mcp_tool_result_t :=
  fun _ => { success := true, content := some "Hello from ESP32 MCP Server!",
             error_message := none }

/-- Registry entry for `hello_world`. -/
def hello_entry : tool_entry_t :=
  { name := "hello_world", description := some "Says hello", handler := hello_handler,
    parameters := none, parameter_count := 0 }

/-- A server with the single `hello_world` tool, never initialized. -/
def hello_server : mcp_server_t :=
  { tools := [hello_entry], is_running := false, is_initialized := false,
    protocol_version := none, client_name := none }

/-- Witness for C1: calling `hello_world` on the concrete (uninitialized)
server sends exactly the one success response. -/
theorem C1_tools_call_dispatch_witness :
    (handle_request hello_server
      "\x7b\"jsonrpc\":\"2.0\",\"id\":2,\"method\":\"tools/call\",\"params\":\x7b\"name\":\"hello_world\"\x7d\x7d").2 =
      [mcp_protocol_create_response 2 (some (mcp_tool_result_to_json
        (hello_entry.handler { json := none })))] :=
  (C1_tools_call_dispatch hello_server
    "\x7b\"jsonrpc\":\"2.0\",\"id\":2,\"method\":\"tools/call\",\"params\":\x7b\"name\":\"hello_world\"\x7d\x7d"
    { jsonrpc := some "2.0", id := 2, method := "tools/call",
      params := some (JValue.obj [("name", JValue.str "hello_world")]),
      id_is_valid := true, is_notification := false }
    "hello_world" hello_entry rfl rfl rfl rfl).1

/-- C7 counterexample: the body with method `tools/list` and no `id`
parses as a notification, yet the dispatch routine answers it — with the
full `tools/list` result, not silence — refuting "a notification (no id)
receives no reply" for methods other than `notifications/initialized`. -/
theorem C7_notification_counterexample :
    (mcp_protocol_parse_request "\x7b\"jsonrpc\":\"2.0\",\"method\":\"tools/list\"\x7d").map
        (fun r => (r.is_notification, r.method)) = some (true, "tools/list") ∧
    (handle_request empty_server "\x7b\"jsonrpc\":\"2.0\",\"method\":\"tools/list\"\x7d").2.length = 1 ∧
    (handle_request empty_server "\x7b\"jsonrpc\":\"2.0\",\"method\":\"tools/list\"\x7d").2 =
      [mcp_protocol_create_response 0 (some (JValue.obj [("tools", JValue.arr [])]))] :=
  ⟨rfl, rfl, rfl⟩

/-- C7 (amended): the dispatch routine sends exactly one response per
inbound message, notification or not (it never consults
`is_notification`); `notifications/initialized` in particular is answered
with the minimal body and sets `is_initialized`. -/
theorem C7_one_response_per_message (server : mcp_server_t) (raw : String) :
    (handle_request server raw).2.length = 1 ∧
    (∀ req, mcp_protocol_parse_request raw = some req →
      req.method = "notifications/initialized" →
      handle_request server raw = ({ server with is_initialized := true }, ["\x7b\x7d"])) := by
  constructor
  · rcases hpr : mcp_protocol_parse_request raw with _ | req
    · simp [handle_request, hpr]
    · by_cases h1 : req.method = "initialize"
      · simp [handle_request, hpr, h1, handle_initialize]
      · by_cases h2 : req.method = "notifications/initialized"
        · simp [handle_request, hpr, h1, h2]
        · by_cases h3 : req.method = "tools/list"
          · simp [handle_request, hpr, h1, h2, h3, handle_list_tools]
          · by_cases h4 : req.method = "tools/call"
            · rcases hname : (req.params.bind fun p =>
                  match cJSON_GetObjectItem p "name" with
                  | some (JValue.str s) => some s
                  | _ => none) with _ | n
              · simp [handle_request, hpr, h1, h2, h3, h4, hname]
              · rcases hf : find_tool server (some n) with _ | entry <;>
                  simp [handle_request, hpr, h1, h2, h3, h4, hname, handle_call_tool, hf]
            · simp [handle_request, hpr, h1, h2, h3, h4]
  · intro req hpr hm
    simp [handle_request, hpr, hm]

/-- Witness for C7 (amended) on the concrete initialized notification:
one minimal acknowledgement, and the handshake flag set. -/
theorem C7_one_response_per_message_witness :
    handle_request empty_server "\x7b\"jsonrpc\":\"2.0\",\"method\":\"notifications/initialized\"\x7d" =
      ({ empty_server with is_initialized := true }, ["\x7b\x7d"]) :=
  (C7_one_response_per_message empty_server
      "\x7b\"jsonrpc\":\"2.0\",\"method\":\"notifications/initialized\"\x7d").2
    { jsonrpc := some "2.0", id := 0, method := "notifications/initialized", params := none,
      id_is_valid := false, is_notification := true }
    rfl rfl

/-- Membership in the keys of a conditionally-included field segment. -/
theorem mem_keys_ite {c : Prop} [Decidable c] (l : List (String × JValue)) (k : String) :
    (k ∈ List.map Prod.fst (if c then l else [])) ↔ (c ∧ k ∈ List.map Prod.fst l) := by
  split <;> simp_all

open mcp_param_type_t in
set_option maxHeartbeats 1000000 in
/-- `description` is emitted exactly when present. -/
theorem keys_desc (schema : mcp_param_schema_t) :
    "description" ∈ (param_json_fields schema).map Prod.fst ↔
      schema.description.isSome = true := by
  rcases hd : schema.description with _ | d <;>
  rcases hp : schema.pattern with _ | p <;>
  rcases hev : schema.enum_values with _ | ev <;>
    simp [param_json_fields, hd, hp, hev, mem_keys_ite]

open mcp_param_type_t in
set_option maxHeartbeats 1000000 in
/-- `minimum` is emitted exactly when flagged on a numeric type. -/
theorem keys_min (schema : mcp_param_schema_t) :
    "minimum" ∈ (param_json_fields schema).map Prod.fst ↔
      (schema.has_minimum = true ∧
        (schema.type = MCP_TYPE_NUMBER ∨ schema.type = MCP_TYPE_INTEGER)) := by
  rcases hd : schema.description with _ | d <;>
  rcases hp : schema.pattern with _ | p <;>
  rcases hev : schema.enum_values with _ | ev <;>
    simp [param_json_fields, hd, hp, hev, mem_keys_ite, and_comm]

open mcp_param_type_t in
set_option maxHeartbeats 1000000 in
/-- `maximum` is emitted exactly when flagged on a numeric type. -/
theorem keys_max (schema : mcp_param_schema_t) :
    "maximum" ∈ (param_json_fields schema).map Prod.fst ↔
      (schema.has_maximum = true ∧
        (schema.type = MCP_TYPE_NUMBER ∨ schema.type = MCP_TYPE_INTEGER)) := by
  rcases hd : schema.description with _ | d <;>
  rcases hp : schema.pattern with _ | p <;>
  rcases hev : schema.enum_values with _ | ev <;>
    simp [param_json_fields, hd, hp, hev, mem_keys_ite, and_comm]

open mcp_param_type_t in
set_option maxHeartbeats 1000000 in
/-- `minLength` is emitted exactly when flagged on the string type. -/
theorem keys_min_len (schema : mcp_param_schema_t) :
    "minLength" ∈ (param_json_fields schema).map Prod.fst ↔
      (schema.has_min_length = true ∧ schema.type = MCP_TYPE_STRING) := by
  rcases hd : schema.description with _ | d <;>
  rcases hp : schema.pattern with _ | p <;>
  rcases hev : schema.enum_values with _ | ev <;>
    simp [param_json_fields, hd, hp, hev, mem_keys_ite, and_comm]

open mcp_param_type_t in
set_option maxHeartbeats 1000000 in
/-- `maxLength` is emitted exactly when flagged on the string type. -/
theorem keys_max_len (schema : mcp_param_schema_t) :
    "maxLength" ∈ (param_json_fields schema).map Prod.fst ↔
      (schema.has_max_length = true ∧ schema.type = MCP_TYPE_STRING) := by
  rcases hd : schema.description with _ | d <;>
  rcases hp : schema.pattern with _ | p <;>
  rcases hev : schema.enum_values with _ | ev <;>
    simp [param_json_fields, hd, hp, hev, mem_keys_ite, and_comm]

open mcp_param_type_t in
set_option maxHeartbeats 1000000 in
/-- `pattern` is emitted exactly when present on the string type. -/
theorem keys_pat (schema : mcp_param_schema_t) :
    "pattern" ∈ (param_json_fields schema).map Prod.fst ↔
      (schema.pattern.isSome = true ∧ schema.type = MCP_TYPE_STRING) := by
  rcases hd : schema.description with _ | d <;>
  rcases hp : schema.pattern with _ | p <;>
  rcases hev : schema.enum_values with _ | ev <;>
    simp [param_json_fields, hd, hp, hev, mem_keys_ite, and_comm]

open mcp_param_type_t in
set_option maxHeartbeats 1000000 in
/-- `enum` is emitted exactly when enum values are present with a
positive count. -/
theorem keys_enum (schema : mcp_param_schema_t) :
    "enum" ∈ (param_json_fields schema).map Prod.fst ↔
      (schema.enum_values.isSome = true ∧ 0 < schema.enum_count) := by
  rcases hd : schema.description with _ | d <;>
  rcases hp : schema.pattern with _ | p <;>
  rcases hev : schema.enum_values with _ | ev <;>
    simp [param_json_fields, hd, hp, hev, mem_keys_ite, and_comm]

open mcp_param_type_t in
set_option maxHeartbeats 1000000 in
/-- An integer-typed `minimum` is rendered without a fractional part. -/
theorem vals_int_min (schema : mcp_param_schema_t)
    (hty : schema.type = MCP_TYPE_INTEGER) :
    ∀ q, ("minimum", JValue.num q) ∈ param_json_fields schema → q.den = 1 := by
  intro q hq
  rcases hd : schema.description with _ | d <;>
  rcases hp : schema.pattern with _ | p <;>
  rcases hev : schema.enum_values with _ | ev <;>
    (simp [param_json_fields, hd, hp, hev, hty] at hq; rw [hq.2]; simp)

open mcp_param_type_t in
set_option maxHeartbeats 1000000 in
/-- An integer-typed `maximum` is rendered without a fractional part. -/
theorem vals_int_max (schema : mcp_param_schema_t)
    (hty : schema.type = MCP_TYPE_INTEGER) :
    ∀ q, ("maximum", JValue.num q) ∈ param_json_fields schema → q.den = 1 := by
  intro q hq
  rcases hd : schema.description with _ | d <;>
  rcases hp : schema.pattern with _ | p <;>
  rcases hev : schema.enum_values with _ | ev <;>
    (simp [param_json_fields, hd, hp, hev, hty] at hq; rw [hq.2]; simp)

set_option maxHeartbeats 1000000 in
/-- No emitted field carries the JSON `null` value. -/
theorem vals_not_null (schema : mcp_param_schema_t) :
    ∀ k, (k, JValue.null) ∉ param_json_fields schema := by
  intro k hv
  rcases hd : schema.description with _ | d <;>
  rcases hp : schema.pattern with _ | p <;>
  rcases hev : schema.enum_values with _ | ev <;>
    simp [param_json_fields, hd, hp, hev] at hv

open mcp_param_type_t in
/-- C6: for a named parameter schema, `param_to_json` emits an object
that always leads with `type`; carries `description` exactly when
present; carries `minimum`/`maximum` exactly when the presence flag is
set on a number/integer type (integer bounds without fractional
component); carries `minLength`/`maxLength`/`pattern` exactly when set
on the string type; carries `enum` exactly when enum values are present;
and never emits any field as JSON `null`. -/
theorem C6_param_to_json_shape (schema : mcp_param_schema_t) (nm : String)
    (hname : schema.name = some nm) :
    mcp_schema_param_to_json schema = some (JValue.obj (param_json_fields schema)) ∧
    (param_json_fields schema).head? =
      some ("type", JValue.str (param_type_to_string schema.type)) ∧
    ("description" ∈ (param_json_fields schema).map Prod.fst ↔
      schema.description.isSome = true) ∧
    ("minimum" ∈ (param_json_fields schema).map Prod.fst ↔
      (schema.has_minimum = true ∧
        (schema.type = MCP_TYPE_NUMBER ∨ schema.type = MCP_TYPE_INTEGER))) ∧
    ("maximum" ∈ (param_json_fields schema).map Prod.fst ↔
      (schema.has_maximum = true ∧
        (schema.type = MCP_TYPE_NUMBER ∨ schema.type = MCP_TYPE_INTEGER))) ∧
    ("minLength" ∈ (param_json_fields schema).map Prod.fst ↔
      (schema.has_min_length = true ∧ schema.type = MCP_TYPE_STRING)) ∧
    ("maxLength" ∈ (param_json_fields schema).map Prod.fst ↔
      (schema.has_max_length = true ∧ schema.type = MCP_TYPE_STRING)) ∧
    ("pattern" ∈ (param_json_fields schema).map Prod.fst ↔
      (schema.pattern.isSome = true ∧ schema.type = MCP_TYPE_STRING)) ∧
    ("enum" ∈ (param_json_fields schema).map Prod.fst ↔
      (schema.enum_values.isSome = true ∧ 0 < schema.enum_count)) ∧
    (schema.type = MCP_TYPE_INTEGER →
      ∀ q, ("minimum", JValue.num q) ∈ param_json_fields schema → q.den = 1) ∧
    (schema.type = MCP_TYPE_INTEGER →
      ∀ q, ("maximum", JValue.num q) ∈ param_json_fields schema → q.den = 1) ∧
    (∀ k, (k, JValue.null) ∉ param_json_fields schema) :=
  ⟨by simp [mcp_schema_param_to_json, hname], rfl,
   keys_desc schema, keys_min schema, keys_max schema, keys_min_len schema,
   keys_max_len schema, keys_pat schema, keys_enum schema,
   vals_int_min schema, vals_int_max schema, vals_not_null schema⟩

open mcp_param_type_t in
/-- The spec's `MCP_PARAM_NUMBER_REQUIRED("temperature", …, 40.0, 90.0)`
schema. -/
def temperature_schema : mcp_param_schema_t :=
  { name := some "temperature", type := MCP_TYPE_NUMBER,
    description := some "Target temperature", required := true,
    minimum := 40, maximum := 90, has_minimum := true, has_maximum := true,
    min_length := 0, max_length := 0, pattern := none,
    has_min_length := false, has_max_length := false,
    enum_values := none, enum_count := 0 }

/-- Witness for C6 on the concrete temperature schema: conversion
succeeds and its `minimum` key is present (flag set, numeric type). -/
theorem C6_param_to_json_shape_witness :
    mcp_schema_param_to_json temperature_schema =
      some (JValue.obj (param_json_fields temperature_schema)) ∧
    "minimum" ∈ (param_json_fields temperature_schema).map Prod.fst :=
  ⟨(C6_param_to_json_shape temperature_schema "temperature" rfl).1,
   ((C6_param_to_json_shape temperature_schema "temperature" rfl).2.2.2.1).mpr
     ⟨rfl, Or.inl rfl⟩⟩
